import Mathlib

/-!
# pico-iie: VGA line timing and the per-line interrupt handler

A shallow embedding of `main.c`: the timing constants, the three statically
allocated line buffers, the initialisation loop of `main` that paints the test
pattern, and the interrupt handler `vga_scan_line`.

Conventions of the embedding

* A `uint16_t` is a `Nat`; a value stored into a `uint16_t` is reduced
  modulo `2 ^ 16` at the store.
* A `uint16_t[VIDEO_SCAN_BUFFER_LEN]` array is a `List Nat`; the predicate
  `State.WellFormed` records that the three arrays have the declared length.
* Hardware registers touched by the handler are fields of `State`; every
  register access and every `memcpy` of the handler is also appended, in
  program order, to `State.effects`.
* The value returned by `pwm_get_counter(vsync_slice)` is an input of the
  handler.
-/

namespace PicoIIe

/-! ## Constants (`#define`s of `main.c`) -/

def CLK_FREQUENCY_HZ : Nat := 270000000

def CLK_TO_PCLK_DIVIDER : Nat := 22

def PCLK_DIVIDER : Nat := 1
def PCLK_PWM_COUNT : Nat := CLK_TO_PCLK_DIVIDER - 1
def PCLK_PWM_VALUE : Nat := CLK_TO_PCLK_DIVIDER / 2

def VGA_H_VISIBLE_AREA : Nat := 640
def VGA_H_FRONT_PORCH : Nat := 16
def VGA_H_SYNC_PULSE : Nat := 96
def VGA_H_BACK_PORCH : Nat := 48
def VGA_H_WHOLE_LINE : Nat := 800

def HSYNC_DIVIDER : Nat := 1
def HSYNC_PWM_COUNT : Nat := 8580 - 1
def HSYNC_PWM_VALUE : Nat := 7658

def VGA_V_VISIBLE_AREA : Nat := 480
def VGA_V_FRONT_PORCH : Nat := 10
def VGA_V_SYNC_PULSE : Nat := 2
def VGA_V_BACK_PORCH : Nat := 33
def VGA_V_WHOLE_FRAME : Nat := 525

def VSYNC_DIVIDER : Nat := 110
def VSYNC_PWM_COUNT : Nat := 40950 - 1
def VSYNC_PWM_VALUE : Nat := 40793

def VGA_SCAN_LINES : Nat := 525
def VGA_TO_VIDEO_SCAN_LINES_DIVIDER : Nat := 2
def VIDEO_SCAN_LINES : Nat := VGA_SCAN_LINES / VGA_TO_VIDEO_SCAN_LINES_DIVIDER
def VIDEO_SCAN_LINE_OFFSET : Nat := 40

def VIDEO_RESOLUTION_X : Nat := 280
def VIDEO_RESOLUTION_Y : Nat := 192

def VIDEO_SCAN_BUFFER_OFFSET : Nat := 44
def VIDEO_SCAN_BUFFER_LEN : Nat := VIDEO_RESOLUTION_X + VIDEO_SCAN_BUFFER_OFFSET + 1

/-- Number of values of a `uint16_t`. -/
def UINT16_MOD : Nat := 2 ^ 16

/-! ## Pulse generators

A PWM slice clocked at `clk` with integer divider `divider` and wrap value
`wrap` counts `0 .. wrap`, so one period lasts `divider * (wrap + 1)` system
clock ticks. -/

/-- Period, in system-clock ticks, of a slice configured with
`pwm_set_clkdiv_int_frac (slice, divider, 0)` and `pwm_set_wrap (slice, wrap)`. -/
def pwm_period_ticks (divider wrap : Nat) : Nat := divider * (wrap + 1)

/-- Output frequency in Hz, as an exact rational, of such a slice. -/
def pwm_frequency_hz (clk divider wrap : Nat) : ℚ :=
  (clk : ℚ) / ((pwm_period_ticks divider wrap : Nat) : ℚ)

/-- Period of the pixel clock as configured in `main`. -/
def pclk_period : Nat := pwm_period_ticks PCLK_DIVIDER PCLK_PWM_COUNT

/-- Period of horizontal sync as configured in `main`. -/
def hsync_period : Nat := pwm_period_ticks HSYNC_DIVIDER HSYNC_PWM_COUNT

/-- Period of vertical sync as configured in `main`. -/
def vsync_period : Nat := pwm_period_ticks VSYNC_DIVIDER VSYNC_PWM_COUNT

/-! ## Line buffers and machine state -/

/-- The three statically allocated line buffers, used as addresses. -/
inductive Buf where
  | scan_line_buffer
  | scan_line_blank
  | scan_line_image
  deriving DecidableEq

/-- Observable actions of the handler, in the order the code performs them. -/
inductive Effect where
  /-- A write of the address of `src` to `al3_read_addr_trig`; `content` is
  what the addressed buffer holds at that moment. -/
  | dma_read_addr_trig (src : Buf) (content : List Nat)
  /-- The call `pwm_clear_irq(hsync_slice)`. -/
  | pwm_clear_irq
  /-- The call `pwm_get_counter(vsync_slice)` and the value it returned. -/
  | pwm_get_counter (value : Nat)
  /-- A `memcpy` of one whole line from `src` to `dst`. -/
  | memcpy (dst src : Buf)
  deriving DecidableEq

/-- Globals of `main.c` and the hardware registers `vga_scan_line` touches. -/
structure State where
  /-- The global `uint16_t scan_line`. -/
  scan_line : Nat
  scan_line_buffer : List Nat
  scan_line_blank : List Nat
  scan_line_image : List Nat
  /-- The wrap interrupt flag of the horizontal-sync slice. -/
  hsync_irq_pending : Bool
  /-- Number of writes made to `al3_read_addr_trig`. -/
  dma_trig_writes : Nat
  /-- Last address written to `al3_read_addr_trig`. -/
  dma_read_addr : Option Buf
  /-- Content of the addressed buffer at the last write to `al3_read_addr_trig`. -/
  buffer_at_trig : List Nat
  /-- Every effect so far, oldest first. -/
  effects : List Effect
  deriving DecidableEq

/-- The arrays have their declared length `VIDEO_SCAN_BUFFER_LEN`. -/
def State.WellFormed (s : State) : Prop :=
  s.scan_line_buffer.length = VIDEO_SCAN_BUFFER_LEN ∧
  s.scan_line_blank.length = VIDEO_SCAN_BUFFER_LEN ∧
  s.scan_line_image.length = VIDEO_SCAN_BUFFER_LEN

instance (s : State) : Decidable s.WellFormed := by
  unfold State.WellFormed; infer_instance

/-- Read the buffer an address designates. -/
def State.read (s : State) : Buf → List Nat
  | .scan_line_buffer => s.scan_line_buffer
  | .scan_line_blank => s.scan_line_blank
  | .scan_line_image => s.scan_line_image

/-- The C library `memcpy (dst, src, bytes)` on `uint16_t` arrays: the first
`bytes / 2` words of `dst` are replaced by those of `src`. -/
def memcpy (dst src : List Nat) (bytes : Nat) : List Nat :=
  src.take (bytes / 2) ++ dst.drop (bytes / 2)

/-! ## `vga_scan_line` -/

/-- Line 88: `dma_hw->ch[pio_dma_chan].al3_read_addr_trig = scan_line_buffer;` -/
def dma_set_read_addr_trig (s : State) : State :=
  { s with
    dma_trig_writes := s.dma_trig_writes + 1
    dma_read_addr := some Buf.scan_line_buffer
    buffer_at_trig := s.scan_line_buffer
    effects := s.effects ++ [Effect.dma_read_addr_trig Buf.scan_line_buffer s.scan_line_buffer] }

/-- Line 89: `pwm_clear_irq(hsync_slice);` -/
def pwm_clear_irq (s : State) : State :=
  { s with
    hsync_irq_pending := false
    effects := s.effects ++ [Effect.pwm_clear_irq] }

/-- The right-hand side of line 91, `counter / 78 / 2`, as stored in a `uint16_t`. -/
def line_index (counter : Nat) : Nat := (counter / 78 / 2) % UINT16_MOD

/-- Line 91: `scan_line = pwm_get_counter(vsync_slice) / 78 / 2;` -/
def read_scan_line (s : State) (counter : Nat) : State :=
  { s with
    scan_line := line_index counter
    effects := s.effects ++ [Effect.pwm_get_counter counter] }

/-- The condition of the `if` on lines 93-94. -/
def is_visible (scan_line : Nat) : Bool :=
  decide (scan_line > VIDEO_SCAN_LINE_OFFSET) &&
  decide (scan_line < VIDEO_SCAN_LINE_OFFSET + VIDEO_RESOLUTION_Y)

/-- The source of the `memcpy` the handler performs for a line index. -/
def selected_template (scan_line : Nat) : Buf :=
  if is_visible scan_line then Buf.scan_line_image else Buf.scan_line_blank

/-- Lines 93-101: copy the image or the blank line into the working buffer. -/
def copy_template (s : State) : State :=
  if is_visible s.scan_line then
    { s with
      scan_line_buffer := memcpy s.scan_line_buffer s.scan_line_image (VIDEO_SCAN_BUFFER_LEN * 2)
      effects := s.effects ++ [Effect.memcpy Buf.scan_line_buffer Buf.scan_line_image] }
  else
    { s with
      scan_line_buffer := memcpy s.scan_line_buffer s.scan_line_blank (VIDEO_SCAN_BUFFER_LEN * 2)
      effects := s.effects ++ [Effect.memcpy Buf.scan_line_buffer Buf.scan_line_blank] }

/-- The interrupt handler; `counter` is what `pwm_get_counter(vsync_slice)`
returns during this call. -/
def vga_scan_line (s : State) (counter : Nat) : State :=
  copy_template (read_scan_line (pwm_clear_irq (dma_set_read_addr_trig s)) counter)

/-- A write to `al3_read_addr_trig`, whatever the address written. -/
def Effect.is_trig : Effect → Bool
  | .dma_read_addr_trig _ _ => true
  | _ => false

/-- A write of the working buffer's address to `al3_read_addr_trig`. -/
def Effect.is_rearm : Effect → Bool
  | .dma_read_addr_trig Buf.scan_line_buffer _ => true
  | _ => false

/-- Consecutive calls of the handler, one per counter value read. -/
def run_lines (s : State) (counters : List Nat) : State :=
  counters.foldl vga_scan_line s

/-! ## Initialisation in `main` -/

/-- Body of the loop on lines 114-120 for one value of `i`. -/
def init_image_body (image : List Nat) (i : Nat) : List Nat :=
  if i > VIDEO_SCAN_BUFFER_OFFSET ∧ i < VIDEO_SCAN_BUFFER_LEN - 1 then
    image.set i 0xFFFF
  else
    image

/-- The loop `for (int i = 0; i < VIDEO_SCAN_BUFFER_LEN; i++)` on lines 114-120. -/
def init_image_loop (image : List Nat) : List Nat :=
  (List.range VIDEO_SCAN_BUFFER_LEN).foldl init_image_body image

/-- An array declared `= {0}`. -/
def zero_line : List Nat := List.replicate VIDEO_SCAN_BUFFER_LEN 0

/-- Globals at program start: zero-initialised statics, nothing written to
the DMA trigger register yet. -/
def reset_state : State :=
  { scan_line := 0
    scan_line_buffer := zero_line
    scan_line_blank := zero_line
    scan_line_image := zero_line
    hsync_irq_pending := false
    dma_trig_writes := 0
    dma_read_addr := none
    buffer_at_trig := []
    effects := [] }

/-- State after the initialisation loop of `main` (lines 114-120). -/
def main_init (s : State) : State :=
  { s with scan_line_image := init_image_loop s.scan_line_image }

/-- State in which the handler is first entered. -/
def boot_state : State := main_init reset_state

/-- The boot state with a working buffer full of stale pixels. -/
def dirty_state : State :=
  { boot_state with scan_line_buffer := List.replicate VIDEO_SCAN_BUFFER_LEN 0xAAAA }


/-! ## Helper lemmas -/

theorem memcpy_whole (dst src : List Nat)
    (hs : src.length = VIDEO_SCAN_BUFFER_LEN) (hd : dst.length = VIDEO_SCAN_BUFFER_LEN) :
    memcpy dst src (VIDEO_SCAN_BUFFER_LEN * 2) = src := by
  unfold memcpy
  have h : VIDEO_SCAN_BUFFER_LEN * 2 / 2 = VIDEO_SCAN_BUFFER_LEN := by
    simp
  rw [h, List.take_of_length_le (le_of_eq hs), List.drop_of_length_le (le_of_eq hd)]
  simp

theorem vga_scan_line_scan_line (s : State) (c : Nat) :
    (vga_scan_line s c).scan_line = line_index c := by
  simp only [vga_scan_line, copy_template, read_scan_line, pwm_clear_irq, dma_set_read_addr_trig]
  split <;> rfl

theorem vga_scan_line_buffer (s : State) (c : Nat) :
    (vga_scan_line s c).scan_line_buffer =
      memcpy s.scan_line_buffer (s.read (selected_template (line_index c)))
        (VIDEO_SCAN_BUFFER_LEN * 2) := by
  simp only [vga_scan_line, copy_template, read_scan_line, pwm_clear_irq, dma_set_read_addr_trig,
    selected_template]
  split <;> rfl

theorem vga_scan_line_templates (s : State) (c : Nat) :
    (vga_scan_line s c).scan_line_blank = s.scan_line_blank ∧
    (vga_scan_line s c).scan_line_image = s.scan_line_image := by
  simp only [vga_scan_line, copy_template, read_scan_line, pwm_clear_irq, dma_set_read_addr_trig]
  split <;> exact ⟨rfl, rfl⟩

theorem vga_scan_line_effects (s : State) (c : Nat) :
    (vga_scan_line s c).effects =
      s.effects ++
        [Effect.dma_read_addr_trig Buf.scan_line_buffer s.scan_line_buffer,
         Effect.pwm_clear_irq,
         Effect.pwm_get_counter c,
         Effect.memcpy Buf.scan_line_buffer (selected_template (line_index c))] := by
  simp only [vga_scan_line, copy_template, read_scan_line, pwm_clear_irq, dma_set_read_addr_trig,
    selected_template]
  split <;> simp

theorem vga_scan_line_dma (s : State) (c : Nat) :
    (vga_scan_line s c).dma_trig_writes = s.dma_trig_writes + 1 ∧
    (vga_scan_line s c).dma_read_addr = some Buf.scan_line_buffer ∧
    (vga_scan_line s c).buffer_at_trig = s.scan_line_buffer ∧
    (vga_scan_line s c).hsync_irq_pending = false := by
  simp only [vga_scan_line, copy_template, read_scan_line, pwm_clear_irq, dma_set_read_addr_trig]
  split <;> exact ⟨rfl, rfl, rfl, rfl⟩

theorem read_length (s : State) (h : s.WellFormed) (b : Buf) :
    (s.read b).length = VIDEO_SCAN_BUFFER_LEN := by
  obtain ⟨h1, h2, h3⟩ := h
  cases b <;> assumption

theorem vga_scan_line_buffer_wf (s : State) (c : Nat) (h : s.WellFormed) :
    (vga_scan_line s c).scan_line_buffer = s.read (selected_template (line_index c)) := by
  rw [vga_scan_line_buffer]
  exact memcpy_whole _ _ (read_length s h _) h.1

theorem vga_scan_line_wf (s : State) (c : Nat) (h : s.WellFormed) :
    (vga_scan_line s c).WellFormed := by
  refine ⟨?_, ?_, ?_⟩
  · rw [vga_scan_line_buffer_wf s c h]; exact read_length s h _
  · rw [(vga_scan_line_templates s c).1]; exact h.2.1
  · rw [(vga_scan_line_templates s c).2]; exact h.2.2

theorem is_visible_iff (n : Nat) : is_visible n = true ↔ 40 < n ∧ n < 232 := by
  simp [is_visible, VIDEO_SCAN_LINE_OFFSET, VIDEO_RESOLUTION_Y]

theorem selected_template_image_iff (n : Nat) :
    selected_template n = Buf.scan_line_image ↔ 40 < n ∧ n < 232 := by
  unfold selected_template
  by_cases h : is_visible n = true
  · simp [h, (is_visible_iff n).1 h]
  · have := mt (is_visible_iff n).2 h
    simp [h, this]

theorem init_fold_length (image : List Nat) (n : Nat) :
    ((List.range n).foldl init_image_body image).length = image.length := by
  induction n with
  | zero => simp
  | succ n ih =>
    rw [List.range_succ, List.foldl_append]
    simp only [List.foldl_cons, List.foldl_nil, init_image_body]
    split
    · rw [List.length_set, ih]
    · exact ih

theorem init_fold_getElem? (image : List Nat) (n i : Nat) :
    ((List.range n).foldl init_image_body image)[i]? =
      if i < n ∧ VIDEO_SCAN_BUFFER_OFFSET < i ∧ i < VIDEO_SCAN_BUFFER_LEN - 1 then
        image[i]?.map (fun _ => 0xFFFF)
      else image[i]? := by
  induction n with
  | zero => simp
  | succ n ih =>
    rw [List.range_succ, List.foldl_append]
    simp only [List.foldl_cons, List.foldl_nil, init_image_body]
    by_cases hn : n > VIDEO_SCAN_BUFFER_OFFSET ∧ n < VIDEO_SCAN_BUFFER_LEN - 1
    · rw [if_pos hn, List.getElem?_set]
      by_cases hin : n = i
      · subst hin
        have hlt : n < n + 1 := Nat.lt_succ_self n
        have hc : n < n + 1 ∧ VIDEO_SCAN_BUFFER_OFFSET < n ∧ n < VIDEO_SCAN_BUFFER_LEN - 1 :=
          ⟨hlt, hn.1, hn.2⟩
        rw [if_pos rfl, init_fold_length]
        by_cases hl : n < image.length
        · rw [if_pos hl, if_pos hc, List.getElem?_eq_getElem hl]; rfl
        · rw [if_neg hl, if_pos hc, List.getElem?_eq_none (le_of_not_lt hl)]; rfl
      · rw [if_neg hin, ih]
        have : (i < n + 1 ∧ VIDEO_SCAN_BUFFER_OFFSET < i ∧ i < VIDEO_SCAN_BUFFER_LEN - 1) ↔
            (i < n ∧ VIDEO_SCAN_BUFFER_OFFSET < i ∧ i < VIDEO_SCAN_BUFFER_LEN - 1) := by
          constructor
          · rintro ⟨h1, h2⟩; exact ⟨by omega, h2⟩
          · rintro ⟨h1, h2⟩; exact ⟨by omega, h2⟩
        simp only [this]
    · rw [if_neg hn, ih]
      have : (i < n + 1 ∧ VIDEO_SCAN_BUFFER_OFFSET < i ∧ i < VIDEO_SCAN_BUFFER_LEN - 1) ↔
          (i < n ∧ VIDEO_SCAN_BUFFER_OFFSET < i ∧ i < VIDEO_SCAN_BUFFER_LEN - 1) := by
        constructor
        · rintro ⟨h1, h2⟩
          refine ⟨?_, h2⟩
          rcases Nat.lt_succ_iff_lt_or_eq.1 h1 with h | h
          · exact h
          · subst h; exact absurd h2 hn
        · rintro ⟨h1, h2⟩; exact ⟨by omega, h2⟩
      simp only [this]

theorem init_image_loop_zero_getElem? (i : Nat) (hi : i < VIDEO_SCAN_BUFFER_LEN) :
    (init_image_loop zero_line)[i]? = some (if 44 < i ∧ i < 324 then 0xFFFF else 0) := by
  unfold init_image_loop
  rw [init_fold_getElem?]
  have hz : zero_line[i]? = some 0 := by
    unfold zero_line
    rw [List.getElem?_replicate]
    simp [hi]
  simp only [hz, VIDEO_SCAN_BUFFER_OFFSET, VIDEO_SCAN_BUFFER_LEN, VIDEO_RESOLUTION_X] at *
  by_cases h : 44 < i ∧ i < 324
  · have : i < 280 + 44 + 1 ∧ 44 < i ∧ i < 280 + 44 + 1 - 1 := by omega
    simp [h, this]
  · have : ¬ (i < 280 + 44 + 1 ∧ 44 < i ∧ i < 280 + 44 + 1 - 1) := by omega
    simp [h, this]

theorem init_image_loop_zero :
    init_image_loop zero_line =
      List.replicate 45 0 ++ (List.replicate 279 0xFFFF ++ [0]) := by
  apply List.ext_getElem?
  intro i
  by_cases hi : i < VIDEO_SCAN_BUFFER_LEN
  · rw [init_image_loop_zero_getElem? i hi]
    simp only [VIDEO_SCAN_BUFFER_LEN, VIDEO_RESOLUTION_X, VIDEO_SCAN_BUFFER_OFFSET] at hi
    by_cases h1 : i < 45
    · rw [List.getElem?_append_left (by rw [List.length_replicate]; exact h1)]
      rw [List.getElem?_replicate, if_pos h1, if_neg (by omega)]
    · rw [List.getElem?_append_right (by rw [List.length_replicate]; omega)]
      rw [List.length_replicate]
      by_cases h2 : i < 324
      · rw [List.getElem?_append_left (by rw [List.length_replicate]; omega)]
        rw [List.getElem?_replicate, if_pos (by omega), if_pos (by omega)]
      · rw [List.getElem?_append_right (by rw [List.length_replicate]; omega)]
        rw [List.length_replicate]
        have : i = 324 := by omega
        subst this
        rfl
  · have hlen : (init_image_loop zero_line).length = VIDEO_SCAN_BUFFER_LEN := by
      unfold init_image_loop
      rw [init_fold_length]
      exact List.length_replicate _ _
    rw [List.getElem?_eq_none (by omega)]
    rw [List.getElem?_eq_none]
    simp only [VIDEO_SCAN_BUFFER_LEN, VIDEO_RESOLUTION_X, VIDEO_SCAN_BUFFER_OFFSET] at hi
    simp only [List.length_append, List.length_replicate, List.length_singleton]
    omega

theorem boot_state_buffers :
    boot_state.scan_line_buffer = zero_line ∧
    boot_state.scan_line_blank = zero_line ∧
    boot_state.scan_line_image = init_image_loop zero_line := by
  simp only [boot_state, main_init, reset_state, and_self]

theorem zero_line_length : zero_line.length = VIDEO_SCAN_BUFFER_LEN := by
  unfold zero_line
  rw [List.length_replicate]

theorem boot_state_wellFormed : boot_state.WellFormed := by
  unfold State.WellFormed
  rw [boot_state_buffers.1, boot_state_buffers.2.1, boot_state_buffers.2.2]
  refine ⟨zero_line_length, zero_line_length, ?_⟩
  unfold init_image_loop
  rw [init_fold_length]
  exact zero_line_length

theorem dirty_state_buffers :
    dirty_state.scan_line_buffer = List.replicate VIDEO_SCAN_BUFFER_LEN 0xAAAA ∧
    dirty_state.scan_line_blank = boot_state.scan_line_blank ∧
    dirty_state.scan_line_image = boot_state.scan_line_image := by
  simp only [dirty_state, and_self]

theorem dirty_state_wellFormed : dirty_state.WellFormed := by
  unfold State.WellFormed
  rw [dirty_state_buffers.1, dirty_state_buffers.2.1, dirty_state_buffers.2.2]
  refine ⟨?_, boot_state_wellFormed.2.1, boot_state_wellFormed.2.2⟩
  rw [List.length_replicate]

theorem zero_line_ne_boot_image : zero_line ≠ boot_state.scan_line_image := by
  intro h
  have h1 : zero_line[45]? = some 0 := by
    unfold zero_line
    rw [List.getElem?_replicate, if_pos (by decide)]
  have h2 : boot_state.scan_line_image[45]? = some 0xFFFF := by
    rw [boot_state_buffers.2.2, init_image_loop_zero_getElem? 45 (by decide)]
    rfl
  rw [h, h2] at h1
  exact absurd h1 (by decide)

/-! ## The handler's result -/

/-- C1: after one call of `vga_scan_line` the working buffer equals, as a whole
325-word array, the template the call selected (`scan_line_image` when the
line index is classified visible, `scan_line_blank` otherwise), whatever the
buffer held before: a second state with the same templates gives the same buffer. -/
theorem vga_scan_line_copies_selected_template (s s' : State) (c : Nat)
    (h : s.WellFormed) (h' : s'.WellFormed)
    (hblank : s'.scan_line_blank = s.scan_line_blank)
    (himage : s'.scan_line_image = s.scan_line_image) :
    (vga_scan_line s c).scan_line_buffer =
        (if is_visible (line_index c) = true then s.scan_line_image else s.scan_line_blank) ∧
    (vga_scan_line s c).scan_line_buffer.length = 325 ∧
    (vga_scan_line s' c).scan_line_buffer = (vga_scan_line s c).scan_line_buffer := by
  have key : ∀ t : State, t.WellFormed → (vga_scan_line t c).scan_line_buffer =
      (if is_visible (line_index c) = true then t.scan_line_image else t.scan_line_blank) := by
    intro t ht
    rw [vga_scan_line_buffer_wf t c ht]
    unfold selected_template
    split <;> rfl
  refine ⟨key s h, ?_, ?_⟩
  · exact (vga_scan_line_wf s c h).1
  · rw [key s h, key s' h', hblank, himage]

/-- Instance of C1 at line 100 of the test pattern: a buffer of stale pixels
and a zeroed buffer both end up equal to the image line. -/
theorem vga_scan_line_copies_selected_template_witness :
    boot_state.WellFormed ∧ dirty_state.WellFormed ∧
    dirty_state.scan_line_blank = boot_state.scan_line_blank ∧
    dirty_state.scan_line_image = boot_state.scan_line_image ∧
    ((vga_scan_line boot_state 15600).scan_line_buffer =
        (if is_visible (line_index 15600) = true then boot_state.scan_line_image
         else boot_state.scan_line_blank) ∧
      (vga_scan_line boot_state 15600).scan_line_buffer.length = 325 ∧
      (vga_scan_line dirty_state 15600).scan_line_buffer =
        (vga_scan_line boot_state 15600).scan_line_buffer) :=
  ⟨boot_state_wellFormed, dirty_state_wellFormed, dirty_state_buffers.2.1,
    dirty_state_buffers.2.2,
    vga_scan_line_copies_selected_template boot_state dirty_state 15600
      boot_state_wellFormed dirty_state_wellFormed dirty_state_buffers.2.1
      dirty_state_buffers.2.2⟩

/-- C2: with offset 40 and 192 rows the handler copies the blank line for line
indices 39, 40 and 232 and the image line for 41 and 231; for every line index
the image line is the one copied exactly when `40 < n < 232`, and the blank
line otherwise. -/
theorem vga_scan_line_window (s : State) (c n : Nat) :
    VIDEO_SCAN_LINE_OFFSET = 40 ∧ VIDEO_RESOLUTION_Y = 192 ∧
    selected_template 39 = Buf.scan_line_blank ∧
    selected_template 40 = Buf.scan_line_blank ∧
    selected_template 41 = Buf.scan_line_image ∧
    selected_template 231 = Buf.scan_line_image ∧
    selected_template 232 = Buf.scan_line_blank ∧
    (selected_template n = Buf.scan_line_image ↔ 40 < n ∧ n < 232) ∧
    (selected_template n = Buf.scan_line_blank ↔ ¬ (40 < n ∧ n < 232)) ∧
    (vga_scan_line s c).effects.getLast? =
      some (Effect.memcpy Buf.scan_line_buffer (selected_template (line_index c))) ∧
    (vga_scan_line s c).scan_line_buffer =
      memcpy s.scan_line_buffer (s.read (selected_template (line_index c)))
        (VIDEO_SCAN_BUFFER_LEN * 2) := by
  refine ⟨rfl, rfl, by decide, by decide, by decide, by decide, by decide,
    selected_template_image_iff n, ?_, ?_, vga_scan_line_buffer s c⟩
  · rw [← selected_template_image_iff n]
    unfold selected_template
    split <;> simp
  · rw [vga_scan_line_effects]
    simp

/-- C3 (evaluation): the line index equal to the offset, 40, gets the blank
line, and only 191 line indices, one fewer than `VIDEO_RESOLUTION_Y`, get the
image line. -/
theorem window_excludes_offset_line :
    selected_template VIDEO_SCAN_LINE_OFFSET = Buf.scan_line_blank ∧
    line_index 6240 = VIDEO_SCAN_LINE_OFFSET ∧
    (vga_scan_line boot_state 6240).scan_line_buffer = boot_state.scan_line_blank ∧
    ((Finset.range UINT16_MOD).filter
      (fun n => selected_template n = Buf.scan_line_image)).card = 191 ∧
    VIDEO_RESOLUTION_Y = 192 := by
  refine ⟨by decide, by decide, ?_, ?_, rfl⟩
  · rw [vga_scan_line_buffer_wf boot_state 6240 boot_state_wellFormed]
    have : selected_template (line_index 6240) = Buf.scan_line_blank := by decide
    rw [this]
    rfl
  · have : (Finset.range UINT16_MOD).filter
        (fun n => selected_template n = Buf.scan_line_image) = Finset.Ioo 40 232 := by
      ext n
      simp only [Finset.mem_filter, Finset.mem_range, Finset.mem_Ioo,
        selected_template_image_iff, UINT16_MOD]
      omega
    rw [this, Nat.card_Ioo]

/-! ## Order of effects -/

/-- C4 (counterexample): entered in the boot state with a counter value on line
100, the handler writes the DMA trigger register first and copies last; at the
trigger write the working buffer still holds zeros, not the image line this
call selects. -/
theorem rearm_precedes_copy_at_boot :
    (vga_scan_line boot_state 15600).effects =
      [Effect.dma_read_addr_trig Buf.scan_line_buffer zero_line,
       Effect.pwm_clear_irq,
       Effect.pwm_get_counter 15600,
       Effect.memcpy Buf.scan_line_buffer Buf.scan_line_image] ∧
    selected_template (line_index 15600) = Buf.scan_line_image ∧
    (vga_scan_line boot_state 15600).buffer_at_trig = zero_line ∧
    (vga_scan_line boot_state 15600).buffer_at_trig ≠
      boot_state.read (selected_template (line_index 15600)) := by
  have hsel : selected_template (line_index 15600) = Buf.scan_line_image := by decide
  have htrig : (vga_scan_line boot_state 15600).buffer_at_trig = zero_line := by
    rw [(vga_scan_line_dma boot_state 15600).2.2.1, boot_state_buffers.1]
  refine ⟨?_, hsel, htrig, ?_⟩
  · rw [vga_scan_line_effects, hsel, boot_state_buffers.1]
    rfl
  · rw [htrig, hsel]
    exact zero_line_ne_boot_image

/-- C4 (amended): every call performs, in this order, the trigger write with
the working buffer's address, the interrupt acknowledge, the counter read and
the copy of the selected template. At the trigger write the working buffer
holds what it held on entry; after the call it holds the template selected in
this call, which is therefore what the buffer holds at the trigger write of
the next call. -/
theorem vga_scan_line_rearm_then_copy (s : State) (c c' : Nat) (h : s.WellFormed) :
    (vga_scan_line s c).effects =
      s.effects ++
        [Effect.dma_read_addr_trig Buf.scan_line_buffer s.scan_line_buffer,
         Effect.pwm_clear_irq,
         Effect.pwm_get_counter c,
         Effect.memcpy Buf.scan_line_buffer (selected_template (line_index c))] ∧
    (vga_scan_line s c).buffer_at_trig = s.scan_line_buffer ∧
    (vga_scan_line s c).scan_line_buffer = s.read (selected_template (line_index c)) ∧
    (vga_scan_line (vga_scan_line s c) c').buffer_at_trig =
      s.read (selected_template (line_index c)) := by
  refine ⟨vga_scan_line_effects s c, (vga_scan_line_dma s c).2.2.1,
    vga_scan_line_buffer_wf s c h, ?_⟩
  rw [(vga_scan_line_dma (vga_scan_line s c) c').2.2.1]
  exact vga_scan_line_buffer_wf s c h

/-- Instance of the amended C4: two calls from the boot state, on lines 100 and 20. -/
theorem vga_scan_line_rearm_then_copy_witness :
    boot_state.WellFormed ∧
    ((vga_scan_line boot_state 15600).effects =
      boot_state.effects ++
        [Effect.dma_read_addr_trig Buf.scan_line_buffer boot_state.scan_line_buffer,
         Effect.pwm_clear_irq,
         Effect.pwm_get_counter 15600,
         Effect.memcpy Buf.scan_line_buffer (selected_template (line_index 15600))] ∧
    (vga_scan_line boot_state 15600).buffer_at_trig = boot_state.scan_line_buffer ∧
    (vga_scan_line boot_state 15600).scan_line_buffer =
      boot_state.read (selected_template (line_index 15600)) ∧
    (vga_scan_line (vga_scan_line boot_state 15600) 3120).buffer_at_trig =
      boot_state.read (selected_template (line_index 15600))) :=
  ⟨boot_state_wellFormed,
    vga_scan_line_rearm_then_copy boot_state 15600 3120 boot_state_wellFormed⟩

/-! ## Line index -/

/-- C5: over the vertical counter's range `0 .. VSYNC_PWM_COUNT = 40949` the
line index the handler stores, `counter / 78 / 2` as a `uint16_t`, is
monotonically non-decreasing, is not truncated by the store, and is 0 for the
counter value 0. -/
theorem line_index_monotone (s s' : State) (c1 c2 : Nat)
    (h12 : c1 ≤ c2) (h2 : c2 ≤ VSYNC_PWM_COUNT) :
    (vga_scan_line s c1).scan_line ≤ (vga_scan_line s' c2).scan_line ∧
    line_index c1 ≤ line_index c2 ∧
    line_index c2 = c2 / 78 / 2 ∧
    (vga_scan_line s 0).scan_line = 0 ∧
    VSYNC_PWM_COUNT = 40949 := by
  rw [vga_scan_line_scan_line, vga_scan_line_scan_line, vga_scan_line_scan_line]
  simp only [line_index, UINT16_MOD, VSYNC_PWM_COUNT] at *
  refine ⟨?_, ?_, ?_, ?_, trivial⟩ <;> omega

/-- Instance of C5 at the two ends of a frame. -/
theorem line_index_monotone_witness :
    (0 : Nat) ≤ 40949 ∧ 40949 ≤ VSYNC_PWM_COUNT ∧
    ((vga_scan_line boot_state 0).scan_line ≤ (vga_scan_line dirty_state 40949).scan_line ∧
      line_index 0 ≤ line_index 40949 ∧
      line_index 40949 = 40949 / 78 / 2 ∧
      (vga_scan_line boot_state 0).scan_line = 0 ∧
      VSYNC_PWM_COUNT = 40949) :=
  ⟨by decide, by decide,
    line_index_monotone boot_state dirty_state 0 40949 (by decide) (by decide)⟩

/-- C9: for a physical line `k < 525` and a delay of `d < 78` counter ticks the
counter value `78 * k + d` is within the counter's range and gives line index
`k / 2`; an index `j ≤ 261` is produced by exactly the two physical lines `2 j`
and `2 j + 1` (both below 525), and the largest index, 262, only by line 524. -/
theorem line_index_half_rate (k d j : Nat) (hk : k < VGA_V_WHOLE_FRAME) (hd : d < 78) :
    78 * k + d ≤ VSYNC_PWM_COUNT ∧
    line_index (78 * k + d) = (78 * k + d) / 78 / 2 ∧
    line_index (78 * k + d) = k / 2 ∧
    line_index (78 * k + d) ≤ 262 ∧
    (j ≤ 261 → (line_index (78 * k + d) = j ↔ k = 2 * j ∨ k = 2 * j + 1)) ∧
    (j ≤ 261 → 2 * j + 1 < VGA_V_WHOLE_FRAME) ∧
    (line_index (78 * k + d) = 262 ↔ k = 524) := by
  simp only [line_index, UINT16_MOD, VSYNC_PWM_COUNT, VGA_V_WHOLE_FRAME] at *
  omega

/-- Instance of C9: the last physical line, entered 77 ticks late. -/
theorem line_index_half_rate_witness :
    524 < VGA_V_WHOLE_FRAME ∧ 77 < 78 ∧
    (78 * 524 + 77 ≤ VSYNC_PWM_COUNT ∧
      line_index (78 * 524 + 77) = (78 * 524 + 77) / 78 / 2 ∧
      line_index (78 * 524 + 77) = 524 / 2 ∧
      line_index (78 * 524 + 77) ≤ 262 ∧
      (100 ≤ 261 → (line_index (78 * 524 + 77) = 100 ↔ 524 = 2 * 100 ∨ 524 = 2 * 100 + 1)) ∧
      (100 ≤ 261 → 2 * 100 + 1 < VGA_V_WHOLE_FRAME) ∧
      (line_index (78 * 524 + 77) = 262 ↔ 524 = 524)) :=
  ⟨by decide, by decide, line_index_half_rate 524 77 100 (by decide) (by decide)⟩

/-! ## Re-arming of the DMA channel -/

theorem countP_effects_vga_scan_line (p : Effect → Bool) (s : State) (c : Nat)
    (h1 : ∀ content, p (Effect.dma_read_addr_trig Buf.scan_line_buffer content) = true)
    (h2 : p Effect.pwm_clear_irq = false) (h3 : ∀ v, p (Effect.pwm_get_counter v) = false)
    (h4 : ∀ a b, p (Effect.memcpy a b) = false) :
    (vga_scan_line s c).effects.countP p = s.effects.countP p + 1 := by
  rw [vga_scan_line_effects, List.countP_append]
  simp [List.countP_cons, h1, h2, h3, h4]

theorem run_lines_counts (p : Effect → Bool)
    (h1 : ∀ content, p (Effect.dma_read_addr_trig Buf.scan_line_buffer content) = true)
    (h2 : p Effect.pwm_clear_irq = false) (h3 : ∀ v, p (Effect.pwm_get_counter v) = false)
    (h4 : ∀ a b, p (Effect.memcpy a b) = false) (counters : List Nat) :
    ∀ s : State,
      (run_lines s counters).dma_trig_writes = s.dma_trig_writes + counters.length ∧
      (run_lines s counters).effects.countP p = s.effects.countP p + counters.length := by
  induction counters with
  | nil => intro s; exact ⟨rfl, rfl⟩
  | cons c cs ih =>
    intro s
    have h := ih (vga_scan_line s c)
    have hrun : run_lines s (c :: cs) = run_lines (vga_scan_line s c) cs := rfl
    rw [hrun, h.1, h.2, (vga_scan_line_dma s c).1,
      countP_effects_vga_scan_line p s c h1 h2 h3 h4, List.length_cons]
    omega

/-- C6: every call of `vga_scan_line`, whichever template it copies, makes
exactly one write to the DMA trigger register, with the working buffer's
address; `N` consecutive calls make exactly `N` such writes, whatever counter
values are read. -/
theorem run_lines_rearm_count (s : State) (c : Nat) (counters : List Nat) :
    (vga_scan_line s c).dma_trig_writes = s.dma_trig_writes + 1 ∧
    (vga_scan_line s c).dma_read_addr = some Buf.scan_line_buffer ∧
    (vga_scan_line s c).effects.countP Effect.is_trig = s.effects.countP Effect.is_trig + 1 ∧
    (vga_scan_line s c).effects.countP Effect.is_rearm = s.effects.countP Effect.is_rearm + 1 ∧
    (run_lines s counters).dma_trig_writes = s.dma_trig_writes + counters.length ∧
    (run_lines s counters).effects.countP Effect.is_trig =
      s.effects.countP Effect.is_trig + counters.length ∧
    (run_lines s counters).effects.countP Effect.is_rearm =
      s.effects.countP Effect.is_rearm + counters.length := by
  have t1 : ∀ content, Effect.is_trig (Effect.dma_read_addr_trig Buf.scan_line_buffer content)
      = true := fun _ => rfl
  have t3 : ∀ v, Effect.is_trig (Effect.pwm_get_counter v) = false := fun _ => rfl
  have t4 : ∀ a b, Effect.is_trig (Effect.memcpy a b) = false := fun _ _ => rfl
  have r1 : ∀ content, Effect.is_rearm (Effect.dma_read_addr_trig Buf.scan_line_buffer content)
      = true := fun _ => rfl
  have r3 : ∀ v, Effect.is_rearm (Effect.pwm_get_counter v) = false := fun _ => rfl
  have r4 : ∀ a b, Effect.is_rearm (Effect.memcpy a b) = false := fun _ _ => rfl
  exact ⟨(vga_scan_line_dma s c).1, (vga_scan_line_dma s c).2.1,
    countP_effects_vga_scan_line _ s c t1 rfl t3 t4,
    countP_effects_vga_scan_line _ s c r1 rfl r3 r4,
    (run_lines_counts _ t1 rfl t3 t4 counters s).1,
    (run_lines_counts _ t1 rfl t3 t4 counters s).2,
    (run_lines_counts _ r1 rfl r3 r4 counters s).2⟩

/-! ## Timing constants -/

/-- C7: the horizontal period, 8580 system-clock ticks, is exactly 390 pixel
clock periods of 22 ticks, and the vertical period, `110 * 40950` ticks, is
exactly `VGA_V_WHOLE_FRAME = 525` horizontal periods. -/
theorem sync_periods_phase_locked :
    hsync_period = HSYNC_DIVIDER * (HSYNC_PWM_COUNT + 1) ∧
    pclk_period = PCLK_DIVIDER * (PCLK_PWM_COUNT + 1) ∧
    vsync_period = VSYNC_DIVIDER * (VSYNC_PWM_COUNT + 1) ∧
    hsync_period = 8580 ∧ pclk_period = 22 ∧ vsync_period = 110 * 40950 ∧
    hsync_period = 390 * pclk_period ∧
    vsync_period = VGA_V_WHOLE_FRAME * hsync_period ∧
    VGA_V_WHOLE_FRAME = 525 := by
  decide

/-- C8: at 270 MHz the horizontal sync generator runs within 0.1 % of
31468.75 Hz and the vertical sync generator within 0.1 % of 60 Hz, in exact
rational arithmetic. -/
theorem sync_frequencies_within_tolerance :
    pwm_frequency_hz CLK_FREQUENCY_HZ HSYNC_DIVIDER HSYNC_PWM_COUNT = 270000000 / (1 * 8580) ∧
    pwm_frequency_hz CLK_FREQUENCY_HZ VSYNC_DIVIDER VSYNC_PWM_COUNT = 270000000 / (110 * 40950) ∧
    |pwm_frequency_hz CLK_FREQUENCY_HZ HSYNC_DIVIDER HSYNC_PWM_COUNT - 31468.75|
      ≤ 0.001 * 31468.75 ∧
    |pwm_frequency_hz CLK_FREQUENCY_HZ VSYNC_DIVIDER VSYNC_PWM_COUNT - 60| ≤ 0.001 * 60 := by
  simp only [pwm_frequency_hz, pwm_period_ticks, CLK_FREQUENCY_HZ, HSYNC_DIVIDER,
    HSYNC_PWM_COUNT, VSYNC_DIVIDER, VSYNC_PWM_COUNT]
  refine ⟨by norm_num, by norm_num, ?_, ?_⟩
  · rw [abs_le]; constructor <;> norm_num
  · rw [abs_le]; constructor <;> norm_num

/-! ## The test pattern -/

/-- C10: after the initialisation loop of `main`, `scan_line_image` has 325
words, holds `0xFFFF` at exactly the indices `45 .. 323` and 0 elsewhere (45
leading zero words, 279 lit words, one trailing zero word), while
`scan_line_blank` and `scan_line_buffer` are all zero. -/
theorem main_init_test_pattern (i : Nat) :
    VIDEO_SCAN_BUFFER_LEN = 325 ∧
    boot_state.scan_line_image.length = 325 ∧
    boot_state.scan_line_image.getD i 0 = (if 44 < i ∧ i < 324 then 0xFFFF else 0) ∧
    boot_state.scan_line_image =
      List.replicate 45 0 ++ (List.replicate 279 0xFFFF ++ [0]) ∧
    boot_state.scan_line_image.count 0xFFFF = 279 ∧
    boot_state.scan_line_blank = List.replicate 325 0 ∧
    boot_state.scan_line_buffer = List.replicate 325 0 := by
  have himg := boot_state_buffers.2.2
  refine ⟨rfl, boot_state_wellFormed.2.2, ?_, ?_, ?_, boot_state_buffers.2.1,
    boot_state_buffers.1⟩
  · rw [himg, List.getD_eq_getElem?_getD]
    by_cases hi : i < VIDEO_SCAN_BUFFER_LEN
    · rw [init_image_loop_zero_getElem? i hi]; rfl
    · have hlen : (init_image_loop zero_line).length = VIDEO_SCAN_BUFFER_LEN := by
        rw [← himg]; exact boot_state_wellFormed.2.2
      rw [List.getElem?_eq_none (by omega)]
      simp only [VIDEO_SCAN_BUFFER_LEN, VIDEO_RESOLUTION_X, VIDEO_SCAN_BUFFER_OFFSET] at hi
      rw [if_neg (by omega)]
      rfl
  · rw [himg]; exact init_image_loop_zero
  · rw [himg, init_image_loop_zero, List.count_append, List.count_append,
      List.count_replicate, List.count_replicate]
    decide

end PicoIIe
